import Mathlib

/-!
Firmware package builder (`builder.cpp`)

A shallow embedding of the Builder-pattern program: the five empty marker
classes, `FirmwarePackage` with its setters and `printStatus`, the abstract
builder interface, the two concrete builders, the `Director` and `main`.

Modelling conventions.
* A marker class `class Bootloader{}` is a structure without fields.
* `std::unique_ptr<T>` is `Option T`; `nullptr` is `none`, and
  `std::make_unique<T>()` is `some {}`.
* A member function that mutates `*this` takes the object and returns the
  updated object; `return *this` is the returned object.
* `std::cout` is the list of lines written so far; `<< s << std::endl`
  appends the line `s`.
* `AbstractFirmwareBuilder` is a type class; virtual dispatch is instance
  resolution on the dynamic type of the builder.
-/

namespace Firmware

/-! ## Marker classes -/

/-- Marker class `Bootloader`. -/
structure Bootloader where
  deriving DecidableEq, Repr

/-- Marker class `MainApp`. -/
structure MainApp where
  deriving DecidableEq, Repr

/-- Marker class `DiagModule`. -/
structure DiagModule where
  deriving DecidableEq, Repr

/-- Marker class `DebugLog`. -/
structure DebugLog where
  deriving DecidableEq, Repr

/-- Marker class `VersionString`. -/
structure VersionString where
  deriving DecidableEq, Repr

/-! ## FirmwarePackage -/

/-- Class `FirmwarePackage`: five owning pointers, each initialised to `nullptr`. -/
structure FirmwarePackage where
  bootloader_ : Option Bootloader := none
  mainApp_ : Option MainApp := none
  diagModule_ : Option DiagModule := none
  debugLog_ : Option DebugLog := none
  versionString_ : Option VersionString := none
  deriving DecidableEq, Repr

namespace FirmwarePackage

/-- Member `setBootloader`: `bootloader_ = std::move(bootloader)`. -/
def setBootloader (self : FirmwarePackage) (bootloader : Option Bootloader) : FirmwarePackage :=
  { self with bootloader_ := bootloader }

/-- Member `setMainApp`: `mainApp_ = std::move(mainApp)`. -/
def setMainApp (self : FirmwarePackage) (mainApp : Option MainApp) : FirmwarePackage :=
  { self with mainApp_ := mainApp }

/-- Member `setDiagModule`: `diagModule_ = std::move(diagModule)`. -/
def setDiagModule (self : FirmwarePackage) (diagModule : Option DiagModule) : FirmwarePackage :=
  { self with diagModule_ := diagModule }

/-- Member `setDebugLog`: `debugLog_ = std::move(debugLog)`. -/
def setDebugLog (self : FirmwarePackage) (debugLog : Option DebugLog) : FirmwarePackage :=
  { self with debugLog_ := debugLog }

/-- Member `setVersionString`: `versionString_ = std::move(versionString)`. -/
def setVersionString (self : FirmwarePackage) (versionString : Option VersionString) :
    FirmwarePackage :=
  { self with versionString_ := versionString }

/-- Member `printStatus`: five consecutive `if (slot_)` tests, each writing one
line to `std::cout` when the pointer is not null. -/
def printStatus (self : FirmwarePackage) (cout : List String) : List String :=
  let cout := if self.bootloader_.isSome then cout ++ ["has bootloader"] else cout
  let cout := if self.mainApp_.isSome then cout ++ ["has main app"] else cout
  let cout := if self.diagModule_.isSome then cout ++ ["has diag module"] else cout
  let cout := if self.debugLog_.isSome then cout ++ ["has debug log"] else cout
  let cout := if self.versionString_.isSome then cout ++ ["has version string"] else cout
  cout

end FirmwarePackage

/-! ## Builders -/

/-- Abstract class `AbstractFirmwareBuilder`: the five pure virtual build steps
and `GetFirmwarePackage`. -/
class AbstractFirmwareBuilder (β : Type) where
  BuildBootloader : β → β
  BuildMainApp : β → β
  BuildDiagModule : β → β
  BuildDebugLog : β → β
  BuildVersionString : β → β
  GetFirmwarePackage : β → FirmwarePackage

/-- Class `FirmwareBuilder`: owns one default-constructed `FirmwarePackage`. -/
structure FirmwareBuilder where
  firmwarePackage_ : FirmwarePackage := {}
  deriving DecidableEq, Repr

namespace FirmwareBuilder

/-- Member `GetFirmwarePackage`: `return firmwarePackage_`. -/
def GetFirmwarePackage (self : FirmwareBuilder) : FirmwarePackage :=
  self.firmwarePackage_

/-- Member `BuildBootloader`. -/
def BuildBootloader (self : FirmwareBuilder) : FirmwareBuilder :=
  { self with firmwarePackage_ := self.firmwarePackage_.setBootloader (some {}) }

/-- Member `BuildMainApp`. -/
def BuildMainApp (self : FirmwareBuilder) : FirmwareBuilder :=
  { self with firmwarePackage_ := self.firmwarePackage_.setMainApp (some {}) }

/-- Member `BuildDiagModule`. -/
def BuildDiagModule (self : FirmwareBuilder) : FirmwareBuilder :=
  { self with firmwarePackage_ := self.firmwarePackage_.setDiagModule (some {}) }

/-- Member `BuildDebugLog`. -/
def BuildDebugLog (self : FirmwareBuilder) : FirmwareBuilder :=
  { self with firmwarePackage_ := self.firmwarePackage_.setDebugLog (some {}) }

/-- Member `BuildVersionString`. -/
def BuildVersionString (self : FirmwareBuilder) : FirmwareBuilder :=
  { self with firmwarePackage_ := self.firmwarePackage_.setVersionString (some {}) }

end FirmwareBuilder

/-- Virtual table of `FirmwareBuilder`. -/
instance instFirmwareBuilder : AbstractFirmwareBuilder FirmwareBuilder where
  BuildBootloader := FirmwareBuilder.BuildBootloader
  BuildMainApp := FirmwareBuilder.BuildMainApp
  BuildDiagModule := FirmwareBuilder.BuildDiagModule
  BuildDebugLog := FirmwareBuilder.BuildDebugLog
  BuildVersionString := FirmwareBuilder.BuildVersionString
  GetFirmwarePackage := FirmwareBuilder.GetFirmwarePackage

/-- Class `FirmwareBuilderWithoutDiag : public FirmwareBuilder`. -/
structure FirmwareBuilderWithoutDiag extends FirmwareBuilder where
  deriving DecidableEq, Repr

namespace FirmwareBuilderWithoutDiag

/-- Override `BuildDiagModule`: only `return *this`. -/
def BuildDiagModule (self : FirmwareBuilderWithoutDiag) : FirmwareBuilderWithoutDiag :=
  self

end FirmwareBuilderWithoutDiag

/-- Virtual table of `FirmwareBuilderWithoutDiag`: `BuildDiagModule` is the
override, every other member is inherited from `FirmwareBuilder` and acts on
the base sub-object. -/
instance instFirmwareBuilderWithoutDiag : AbstractFirmwareBuilder FirmwareBuilderWithoutDiag where
  BuildBootloader self := { self with toFirmwareBuilder := self.toFirmwareBuilder.BuildBootloader }
  BuildMainApp self := { self with toFirmwareBuilder := self.toFirmwareBuilder.BuildMainApp }
  BuildDiagModule := FirmwareBuilderWithoutDiag.BuildDiagModule
  BuildDebugLog self := { self with toFirmwareBuilder := self.toFirmwareBuilder.BuildDebugLog }
  BuildVersionString self :=
    { self with toFirmwareBuilder := self.toFirmwareBuilder.BuildVersionString }
  GetFirmwarePackage self := self.toFirmwareBuilder.GetFirmwarePackage

/-! ## Director and client -/

/-- Class `Director`: holds a reference to a builder. The referenced builder is
carried in the field, so the builder after a call is read back from it. -/
structure Director (β : Type) where
  firmwareBuilder_ : β

/-- Member `Director::Construct`: the chained call
`firmwareBuilder_.BuildBootloader().BuildMainApp().BuildDiagModule().BuildDebugLog().BuildVersionString()`,
each link dispatched through the abstract interface. -/
def Director.Construct {β : Type} [AbstractFirmwareBuilder β] (self : Director β) : Director β :=
  let b := AbstractFirmwareBuilder.BuildBootloader self.firmwareBuilder_
  let b := AbstractFirmwareBuilder.BuildMainApp b
  let b := AbstractFirmwareBuilder.BuildDiagModule b
  let b := AbstractFirmwareBuilder.BuildDebugLog b
  let b := AbstractFirmwareBuilder.BuildVersionString b
  { self with firmwareBuilder_ := b }

/-- Function `main`: returns the contents of `std::cout` and the exit status. -/
def main (cout : List String) : List String × Int :=
  let firmwareBuilder : FirmwareBuilderWithoutDiag := {}
  let director : Director FirmwareBuilderWithoutDiag := ⟨firmwareBuilder⟩
  let director := director.Construct
  let firmwarePackage := AbstractFirmwareBuilder.GetFirmwarePackage director.firmwareBuilder_
  (firmwarePackage.printStatus cout, 0)

/-! ## Specification vocabulary -/

/-- The five component kinds, one per slot of the package and per build step. -/
inductive Component where
  | bootloader
  | mainApp
  | diagModule
  | debugLog
  | versionString
  deriving DecidableEq, Repr, Fintype

namespace Component

/-- The fixed slot order of the status report and of the director. -/
def slotOrder : List Component :=
  [bootloader, mainApp, diagModule, debugLog, versionString]

/-- The component name printed after `has ` by `printStatus`. -/
def name : Component → String
  | bootloader => "bootloader"
  | mainApp => "main app"
  | diagModule => "diag module"
  | debugLog => "debug log"
  | versionString => "version string"

end Component

/-- Whether the slot of component `c` holds an instance (the pointer is not null). -/
def FirmwarePackage.occupied (p : FirmwarePackage) : Component → Bool
  | .bootloader => p.bootloader_.isSome
  | .mainApp => p.mainApp_.isSome
  | .diagModule => p.diagModule_.isSome
  | .debugLog => p.debugLog_.isSome
  | .versionString => p.versionString_.isSome

/-- The occupancy of the five slots, in slot order. -/
def FirmwarePackage.occupancy (p : FirmwarePackage) : List Bool :=
  Component.slotOrder.map p.occupied

/-- The number of occupied slots. -/
def FirmwarePackage.occupiedCount (p : FirmwarePackage) : Nat :=
  (Component.slotOrder.filter p.occupied).length

/-- The build step of a component, dispatched through the abstract interface. -/
def buildStep {β : Type} [AbstractFirmwareBuilder β] : Component → β → β
  | .bootloader => AbstractFirmwareBuilder.BuildBootloader
  | .mainApp => AbstractFirmwareBuilder.BuildMainApp
  | .diagModule => AbstractFirmwareBuilder.BuildDiagModule
  | .debugLog => AbstractFirmwareBuilder.BuildDebugLog
  | .versionString => AbstractFirmwareBuilder.BuildVersionString

/-- Invoking a sequence of build steps on a builder, first element first. -/
def buildSteps {β : Type} [AbstractFirmwareBuilder β] (l : List Component) (b : β) : β :=
  l.foldl (fun x c => buildStep c x) b

/-- The package of a builder, read through the abstract interface. -/
abbrev packageOf {β : Type} [AbstractFirmwareBuilder β] (b : β) : FirmwarePackage :=
  AbstractFirmwareBuilder.GetFirmwarePackage b

/-! ## Auxiliary facts -/

/-- Any two build steps of the full builder commute. -/
theorem fullBuilder_buildStep_comm (s t : Component) (b : FirmwareBuilder) :
    buildStep s (buildStep t b) = buildStep t (buildStep s b) := by
  cases s <;> cases t <;> rfl

/-- Any two build steps of the no-diagnostics builder commute. -/
theorem withoutDiag_buildStep_comm (s t : Component)
    (v : FirmwareBuilderWithoutDiag) :
    buildStep s (buildStep t v) = buildStep t (buildStep s v) := by
  cases s <;> cases t <;> rfl

/-- When the steps of a builder commute, a sequence of steps and any rearrangement
of it lead to the same builder state. -/
theorem buildSteps_perm {β : Type} [AbstractFirmwareBuilder β]
    (hcomm : ∀ (s t : Component) (b : β), buildStep s (buildStep t b) = buildStep t (buildStep s b))
    {l₁ l₂ : List Component} (h : l₁.Perm l₂) (b : β) :
    buildSteps l₁ b = buildSteps l₂ b :=
  List.Perm.foldl_eq' h (fun x _ y _ z => hcomm y x z) b

/-- The director runs the five steps in slot order. -/
theorem construct_eq_buildSteps {β : Type} [AbstractFirmwareBuilder β]
    (d : Director β) :
    d.Construct.firmwareBuilder_ = buildSteps Component.slotOrder d.firmwareBuilder_ :=
  rfl

/-! ## The status report -/

/-- C1: a fresh no-diagnostics builder, run through `Director::Construct`, has a
package whose status report is exactly the four lines for bootloader, main app,
debug log and version string, in that order, without the diagnostics line; this
is the run of `main`, which writes these lines and returns 0. -/
theorem main_status_report :
    (packageOf (Director.Construct
        (Director.mk ({} : FirmwareBuilderWithoutDiag))).firmwareBuilder_).printStatus [] =
      ["has bootloader", "has main app", "has debug log", "has version string"] ∧
    main [] = (["has bootloader", "has main app", "has debug log", "has version string"], 0) ∧
    "has diag module" ∉ (main []).1 := by
  refine ⟨by decide, by decide, by decide⟩

/-- C2: for every package state and every prior stream content, `printStatus`
appends exactly the lines `has <name>` of the occupied slots, in slot order;
so each component line is present iff its slot is occupied, it occurs once in
that case, and the number of lines is the number of occupied slots. -/
theorem printStatus_spec (p : FirmwarePackage) (cout : List String) :
    p.printStatus cout =
      cout ++ (Component.slotOrder.filter p.occupied).map (fun c => "has " ++ c.name) ∧
    (∀ c : Component, "has " ++ c.name ∈ p.printStatus [] ↔ p.occupied c = true) ∧
    (∀ c : Component,
      (p.printStatus []).count ("has " ++ c.name) = if p.occupied c then 1 else 0) ∧
    (p.printStatus []).length = p.occupiedCount := by
  rcases p with ⟨_ | ⟨⟨⟩⟩, _ | ⟨⟨⟩⟩, _ | ⟨⟨⟩⟩, _ | ⟨⟨⟩⟩, _ | ⟨⟨⟩⟩⟩ <;>
    refine ⟨?_, by decide, by decide, by decide⟩ <;>
    simp [FirmwarePackage.printStatus, Component.slotOrder, FirmwarePackage.occupied,
      Component.name]

/-! ## Build steps on fresh builders -/

/-- C3: for each of the five component kinds, the corresponding build step alone,
on a fresh full builder, gives a package in which that slot is occupied and the
four other slots are not. -/
theorem fresh_single_step_occupancy (c d : Component) :
    (packageOf (buildStep c ({} : FirmwareBuilder))).occupied d = decide (d = c) ∧
    (packageOf (FirmwareBuilder.BuildBootloader {})).occupancy =
      [true, false, false, false, false] ∧
    (packageOf (FirmwareBuilder.BuildMainApp {})).occupancy =
      [false, true, false, false, false] ∧
    (packageOf (FirmwareBuilder.BuildDiagModule {})).occupancy =
      [false, false, true, false, false] ∧
    (packageOf (FirmwareBuilder.BuildDebugLog {})).occupancy =
      [false, false, false, true, false] ∧
    (packageOf (FirmwareBuilder.BuildVersionString {})).occupancy =
      [false, false, false, false, true] := by
  refine ⟨?_, by decide, by decide, by decide, by decide, by decide⟩
  cases c <;> cases d <;> decide

/-- C4: a fresh no-diagnostics builder driven through the five build steps in the
director's sequence ends with bootloader, main app, debug log and version string
occupied and the diagnostics slot empty. -/
theorem withoutDiag_full_sequence :
    (packageOf (Director.Construct
        (Director.mk ({} : FirmwareBuilderWithoutDiag))).firmwareBuilder_).occupancy =
      [true, true, false, true, true] ∧
    (packageOf (buildSteps Component.slotOrder ({} : FirmwareBuilderWithoutDiag))).occupancy =
      [true, true, false, true, true] ∧
    (packageOf (Director.Construct
        (Director.mk ({} : FirmwareBuilderWithoutDiag))).firmwareBuilder_).diagModule_ = none := by
  refine ⟨by decide, by decide, by decide⟩

/-- C7: the package of a freshly created builder, full or no-diagnostics, has all
five slots absent, no occupied slot, and an empty status report. -/
theorem fresh_builder_empty :
    packageOf ({} : FirmwareBuilder) =
      { bootloader_ := none, mainApp_ := none, diagModule_ := none, debugLog_ := none,
        versionString_ := none } ∧
    packageOf ({} : FirmwareBuilderWithoutDiag) =
      { bootloader_ := none, mainApp_ := none, diagModule_ := none, debugLog_ := none,
        versionString_ := none } ∧
    (∀ c : Component, (packageOf ({} : FirmwareBuilder)).occupied c = false) ∧
    (∀ c : Component, (packageOf ({} : FirmwareBuilderWithoutDiag)).occupied c = false) ∧
    (packageOf ({} : FirmwareBuilder)).occupiedCount = 0 ∧
    (packageOf ({} : FirmwareBuilderWithoutDiag)).occupiedCount = 0 ∧
    (packageOf ({} : FirmwareBuilder)).printStatus [] = [] ∧
    (packageOf ({} : FirmwareBuilderWithoutDiag)).printStatus [] = [] := by
  refine ⟨rfl, rfl, by decide, by decide, by decide, by decide, by decide, by decide⟩

/-! ## Order and repetition of build steps -/

/-- C5: for the full builder `b` and the no-diagnostics builder `v`, in any starting
state, the five build steps invoked in any order `l` (a permutation of the slot
order) give the same slot occupancy as `Director::Construct`; and any two build
steps commute. -/
theorem build_order_irrelevant (l : List Component) (h : l.Perm Component.slotOrder)
    (b : FirmwareBuilder) (v : FirmwareBuilderWithoutDiag) (s t : Component) :
    (packageOf (buildSteps l b)).occupancy =
      (packageOf (Director.Construct (Director.mk b)).firmwareBuilder_).occupancy ∧
    (packageOf (buildSteps l v)).occupancy =
      (packageOf (Director.Construct (Director.mk v)).firmwareBuilder_).occupancy ∧
    buildStep s (buildStep t b) = buildStep t (buildStep s b) ∧
    buildStep s (buildStep t v) = buildStep t (buildStep s v) := by
  refine ⟨?_, ?_, fullBuilder_buildStep_comm s t b,
    withoutDiag_buildStep_comm s t v⟩
  · rw [buildSteps_perm fullBuilder_buildStep_comm h b, construct_eq_buildSteps]
  · rw [buildSteps_perm withoutDiag_buildStep_comm h v,
      construct_eq_buildSteps]

/-- Witness of C5: the reverse of the director's order, on fresh builders. -/
theorem build_order_irrelevant_witness :
    [Component.versionString, Component.debugLog, Component.diagModule, Component.mainApp,
        Component.bootloader].Perm Component.slotOrder ∧
    (packageOf (buildSteps [Component.versionString, Component.debugLog, Component.diagModule,
        Component.mainApp, Component.bootloader] ({} : FirmwareBuilder))).occupancy =
      (packageOf (Director.Construct (Director.mk ({} : FirmwareBuilder))).firmwareBuilder_).occupancy ∧
    (packageOf (buildSteps [Component.versionString, Component.debugLog, Component.diagModule,
        Component.mainApp, Component.bootloader] ({} : FirmwareBuilderWithoutDiag))).occupancy =
      (packageOf (Director.Construct
        (Director.mk ({} : FirmwareBuilderWithoutDiag))).firmwareBuilder_).occupancy ∧
    buildStep Component.diagModule (buildStep Component.bootloader ({} : FirmwareBuilder)) =
      buildStep Component.bootloader (buildStep Component.diagModule ({} : FirmwareBuilder)) ∧
    buildStep Component.diagModule
        (buildStep Component.bootloader ({} : FirmwareBuilderWithoutDiag)) =
      buildStep Component.bootloader
        (buildStep Component.diagModule ({} : FirmwareBuilderWithoutDiag)) :=
  ⟨by decide,
    build_order_irrelevant _ (by decide) {} {} Component.diagModule Component.bootloader⟩

/-- C6: for every build step of either builder and every package state, applying
the step twice gives the same slot occupancy and the same status report as
applying it once; on the full builder the line of the built component is then
reported exactly once, and on the no-diagnostics builder at most once. -/
theorem build_step_twice (c : Component) (b : FirmwareBuilder)
    (v : FirmwareBuilderWithoutDiag) :
    (packageOf (buildStep c (buildStep c b))).occupancy =
      (packageOf (buildStep c b)).occupancy ∧
    (packageOf (buildStep c (buildStep c v))).occupancy =
      (packageOf (buildStep c v)).occupancy ∧
    (packageOf (buildStep c (buildStep c b))).printStatus [] =
      (packageOf (buildStep c b)).printStatus [] ∧
    (packageOf (buildStep c (buildStep c v))).printStatus [] =
      (packageOf (buildStep c v)).printStatus [] ∧
    ((packageOf (buildStep c (buildStep c b))).printStatus []).count ("has " ++ c.name) = 1 ∧
    ((packageOf (buildStep c (buildStep c v))).printStatus []).count ("has " ++ c.name) ≤ 1 := by
  have hb : buildStep c (buildStep c b) = buildStep c b := by cases c <;> rfl
  have hv : buildStep c (buildStep c v) = buildStep c v := by cases c <;> rfl
  rw [hb, hv]
  refine ⟨rfl, rfl, rfl, rfl, ?_, ?_⟩
  · rcases b with ⟨⟨_ | ⟨⟨⟩⟩, _ | ⟨⟨⟩⟩, _ | ⟨⟨⟩⟩, _ | ⟨⟨⟩⟩, _ | ⟨⟨⟩⟩⟩⟩ <;> cases c <;> decide
  · rcases v with ⟨⟨⟨_ | ⟨⟨⟩⟩, _ | ⟨⟨⟩⟩, _ | ⟨⟨⟩⟩, _ | ⟨⟨⟩⟩, _ | ⟨⟨⟩⟩⟩⟩⟩ <;> cases c <;> decide

/-! ## The no-diagnostics variant, the setters and the director -/

/-- C8: on the no-diagnostics builder, in every package state, `BuildDiagModule`
returns the builder unchanged, so all five slots keep their content, and each of
the four other steps gives the package the full builder gives from the same
state; the diagnostics step is a real override, since on a fresh builder the two
results differ. -/
theorem withoutDiag_overrides_one_step (v : FirmwareBuilderWithoutDiag) :
    AbstractFirmwareBuilder.BuildDiagModule v = v ∧
    packageOf (AbstractFirmwareBuilder.BuildDiagModule v) = packageOf v ∧
    packageOf (AbstractFirmwareBuilder.BuildBootloader v) =
      packageOf (AbstractFirmwareBuilder.BuildBootloader v.toFirmwareBuilder) ∧
    packageOf (AbstractFirmwareBuilder.BuildMainApp v) =
      packageOf (AbstractFirmwareBuilder.BuildMainApp v.toFirmwareBuilder) ∧
    packageOf (AbstractFirmwareBuilder.BuildDebugLog v) =
      packageOf (AbstractFirmwareBuilder.BuildDebugLog v.toFirmwareBuilder) ∧
    packageOf (AbstractFirmwareBuilder.BuildVersionString v) =
      packageOf (AbstractFirmwareBuilder.BuildVersionString v.toFirmwareBuilder) ∧
    packageOf (AbstractFirmwareBuilder.BuildDiagModule ({} : FirmwareBuilderWithoutDiag)) ≠
      packageOf (AbstractFirmwareBuilder.BuildDiagModule ({} : FirmwareBuilder)) := by
  refine ⟨rfl, rfl, rfl, rfl, rfl, rfl, by decide⟩

/-- C9: each of the five setters, for every package state and every argument
(an instance or absent), leaves its own slot holding exactly the argument and the
four other slots unchanged; with an absent argument its slot ends absent. -/
theorem setters_frame (p : FirmwarePackage) (x₁ : Option Bootloader) (x₂ : Option MainApp)
    (x₃ : Option DiagModule) (x₄ : Option DebugLog) (x₅ : Option VersionString) :
    ((p.setBootloader x₁).bootloader_ = x₁ ∧
      (p.setBootloader x₁).mainApp_ = p.mainApp_ ∧
      (p.setBootloader x₁).diagModule_ = p.diagModule_ ∧
      (p.setBootloader x₁).debugLog_ = p.debugLog_ ∧
      (p.setBootloader x₁).versionString_ = p.versionString_) ∧
    ((p.setMainApp x₂).mainApp_ = x₂ ∧
      (p.setMainApp x₂).bootloader_ = p.bootloader_ ∧
      (p.setMainApp x₂).diagModule_ = p.diagModule_ ∧
      (p.setMainApp x₂).debugLog_ = p.debugLog_ ∧
      (p.setMainApp x₂).versionString_ = p.versionString_) ∧
    ((p.setDiagModule x₃).diagModule_ = x₃ ∧
      (p.setDiagModule x₃).bootloader_ = p.bootloader_ ∧
      (p.setDiagModule x₃).mainApp_ = p.mainApp_ ∧
      (p.setDiagModule x₃).debugLog_ = p.debugLog_ ∧
      (p.setDiagModule x₃).versionString_ = p.versionString_) ∧
    ((p.setDebugLog x₄).debugLog_ = x₄ ∧
      (p.setDebugLog x₄).bootloader_ = p.bootloader_ ∧
      (p.setDebugLog x₄).mainApp_ = p.mainApp_ ∧
      (p.setDebugLog x₄).diagModule_ = p.diagModule_ ∧
      (p.setDebugLog x₄).versionString_ = p.versionString_) ∧
    ((p.setVersionString x₅).versionString_ = x₅ ∧
      (p.setVersionString x₅).bootloader_ = p.bootloader_ ∧
      (p.setVersionString x₅).mainApp_ = p.mainApp_ ∧
      (p.setVersionString x₅).diagModule_ = p.diagModule_ ∧
      (p.setVersionString x₅).debugLog_ = p.debugLog_) ∧
    ((p.setBootloader none).bootloader_ = none ∧
      (p.setMainApp none).mainApp_ = none ∧
      (p.setDiagModule none).diagModule_ = none ∧
      (p.setDebugLog none).debugLog_ = none ∧
      (p.setVersionString none).versionString_ = none) := by
  refine ⟨⟨rfl, rfl, rfl, rfl, rfl⟩, ⟨rfl, rfl, rfl, rfl, rfl⟩, ⟨rfl, rfl, rfl, rfl, rfl⟩,
    ⟨rfl, rfl, rfl, rfl, rfl⟩, ⟨rfl, rfl, rfl, rfl, rfl⟩, ⟨rfl, rfl, rfl, rfl, rfl⟩⟩

/-- C10: for any builder behind the abstract interface, `Director::Construct` is
the composition of its five build steps in the order bootloader, main app,
diagnostics, debug log, version string; on a full builder, from any starting
package state, all five slots are then occupied and the status report is the
five lines. -/
theorem construct_spec {β : Type} [AbstractFirmwareBuilder β] (d : Director β)
    (b : FirmwareBuilder) :
    d.Construct.firmwareBuilder_ =
      AbstractFirmwareBuilder.BuildVersionString
        (AbstractFirmwareBuilder.BuildDebugLog
          (AbstractFirmwareBuilder.BuildDiagModule
            (AbstractFirmwareBuilder.BuildMainApp
              (AbstractFirmwareBuilder.BuildBootloader d.firmwareBuilder_)))) ∧
    d.Construct.firmwareBuilder_ =
      buildSteps [Component.bootloader, Component.mainApp, Component.diagModule,
        Component.debugLog, Component.versionString] d.firmwareBuilder_ ∧
    (∀ c : Component,
      (packageOf (Director.Construct (Director.mk b)).firmwareBuilder_).occupied c = true) ∧
    (packageOf (Director.Construct (Director.mk b)).firmwareBuilder_).occupiedCount = 5 ∧
    (packageOf (Director.Construct (Director.mk b)).firmwareBuilder_).printStatus [] =
      ["has bootloader", "has main app", "has diag module", "has debug log",
        "has version string"] := by
  refine ⟨rfl, rfl, ?_, ?_, ?_⟩ <;>
    rcases b with ⟨⟨_ | ⟨⟨⟩⟩, _ | ⟨⟨⟩⟩, _ | ⟨⟨⟩⟩, _ | ⟨⟨⟩⟩, _ | ⟨⟨⟩⟩⟩⟩ <;> decide

/-! ## Invariants of build sequences -/

/-- Unfolding a sequence of build steps at its first step. -/
theorem buildSteps_cons {β : Type} [AbstractFirmwareBuilder β] (c : Component)
    (l : List Component) (b : β) :
    buildSteps (c :: l) b = buildSteps l (buildStep c b) :=
  rfl

/-- A full builder and a no-diagnostics builder that agree on the four slots other
than diagnostics still agree on them after the same sequence of build steps, and
the diagnostics slot of the no-diagnostics builder keeps its starting content. -/
theorem buildSteps_agree (l : List Component) :
    ∀ (b : FirmwareBuilder) (v : FirmwareBuilderWithoutDiag),
      (packageOf v).bootloader_ = (packageOf b).bootloader_ →
      (packageOf v).mainApp_ = (packageOf b).mainApp_ →
      (packageOf v).debugLog_ = (packageOf b).debugLog_ →
      (packageOf v).versionString_ = (packageOf b).versionString_ →
      (packageOf (buildSteps l v)).bootloader_ = (packageOf (buildSteps l b)).bootloader_ ∧
      (packageOf (buildSteps l v)).mainApp_ = (packageOf (buildSteps l b)).mainApp_ ∧
      (packageOf (buildSteps l v)).debugLog_ = (packageOf (buildSteps l b)).debugLog_ ∧
      (packageOf (buildSteps l v)).versionString_ =
        (packageOf (buildSteps l b)).versionString_ ∧
      (packageOf (buildSteps l v)).diagModule_ = (packageOf v).diagModule_ := by
  induction l with
  | nil => intro b v h₁ h₂ h₃ h₄; exact ⟨h₁, h₂, h₃, h₄, rfl⟩
  | cons c l ih =>
    intro b v h₁ h₂ h₃ h₄
    have hd : (packageOf (buildStep c v)).diagModule_ = (packageOf v).diagModule_ := by
      cases c <;> rfl
    rw [buildSteps_cons, buildSteps_cons, ← hd]
    apply ih (buildStep c b) (buildStep c v)
    · cases c <;> first | rfl | exact h₁
    · cases c <;> first | rfl | exact h₂
    · cases c <;> first | rfl | exact h₃
    · cases c <;> first | rfl | exact h₄

/-- The diagnostics slot of a full builder after a sequence of build steps is
occupied when it was occupied before or the sequence has the diagnostics step. -/
theorem fullBuilder_diag_after (l : List Component) :
    ∀ b : FirmwareBuilder,
      (packageOf (buildSteps l b)).occupied Component.diagModule =
        ((packageOf b).occupied Component.diagModule || decide (Component.diagModule ∈ l)) := by
  induction l with
  | nil => intro b; simp [buildSteps]
  | cons c l ih =>
    intro b
    rw [buildSteps_cons, ih]
    rcases b with ⟨⟨_, _, _ | ⟨⟨⟩⟩, _, _⟩⟩ <;> cases c <;>
      simp [buildStep, packageOf, AbstractFirmwareBuilder.GetFirmwarePackage,
        AbstractFirmwareBuilder.BuildBootloader, AbstractFirmwareBuilder.BuildMainApp,
        AbstractFirmwareBuilder.BuildDiagModule, AbstractFirmwareBuilder.BuildDebugLog,
        AbstractFirmwareBuilder.BuildVersionString, FirmwareBuilder.GetFirmwarePackage,
        FirmwareBuilder.BuildBootloader, FirmwareBuilder.BuildMainApp,
        FirmwareBuilder.BuildDiagModule, FirmwareBuilder.BuildDebugLog,
        FirmwareBuilder.BuildVersionString, FirmwarePackage.setBootloader,
        FirmwarePackage.setMainApp, FirmwarePackage.setDiagModule, FirmwarePackage.setDebugLog,
        FirmwarePackage.setVersionString, FirmwarePackage.occupied]

/-- A package with an empty diagnostics slot reports no diagnostics line. -/
theorem no_diag_line (p : FirmwarePackage) (h : p.diagModule_ = none) :
    "has diag module" ∉ p.printStatus [] := by
  rcases p with ⟨_ | ⟨⟨⟩⟩, _ | ⟨⟨⟩⟩, _ | ⟨⟨⟩⟩, _ | ⟨⟨⟩⟩, _ | ⟨⟨⟩⟩⟩ <;>
    first
    | decide
    | exact Option.noConfusion h

/-- C11: for every finite sequence of build steps applied to a fresh full builder
and to a fresh no-diagnostics builder, the two packages agree on the bootloader,
main-app, debug-log and version-string slots; the diagnostics slot of the
no-diagnostics builder is absent and its line is not reported, while the full
builder has it occupied exactly when the sequence has the diagnostics step. -/
theorem withoutDiag_misses_only_diag (l : List Component) :
    (packageOf (buildSteps l ({} : FirmwareBuilderWithoutDiag))).bootloader_ =
      (packageOf (buildSteps l ({} : FirmwareBuilder))).bootloader_ ∧
    (packageOf (buildSteps l ({} : FirmwareBuilderWithoutDiag))).mainApp_ =
      (packageOf (buildSteps l ({} : FirmwareBuilder))).mainApp_ ∧
    (packageOf (buildSteps l ({} : FirmwareBuilderWithoutDiag))).debugLog_ =
      (packageOf (buildSteps l ({} : FirmwareBuilder))).debugLog_ ∧
    (packageOf (buildSteps l ({} : FirmwareBuilderWithoutDiag))).versionString_ =
      (packageOf (buildSteps l ({} : FirmwareBuilder))).versionString_ ∧
    (packageOf (buildSteps l ({} : FirmwareBuilderWithoutDiag))).diagModule_ = none ∧
    (packageOf (buildSteps l ({} : FirmwareBuilderWithoutDiag))).occupied
      Component.diagModule = false ∧
    "has diag module" ∉
      (packageOf (buildSteps l ({} : FirmwareBuilderWithoutDiag))).printStatus [] ∧
    (packageOf (buildSteps l ({} : FirmwareBuilder))).occupied Component.diagModule =
      decide (Component.diagModule ∈ l) := by
  obtain ⟨h₁, h₂, h₃, h₄, h₅⟩ :=
    buildSteps_agree l ({} : FirmwareBuilder) ({} : FirmwareBuilderWithoutDiag) rfl rfl rfl rfl
  have hnone : (packageOf (buildSteps l ({} : FirmwareBuilderWithoutDiag))).diagModule_ = none :=
    h₅
  refine ⟨h₁, h₂, h₃, h₄, hnone, ?_, no_diag_line _ hnone, ?_⟩
  · simp [FirmwarePackage.occupied, hnone]
  · rw [fullBuilder_diag_after]
    have hfresh : (packageOf ({} : FirmwareBuilder)).occupied Component.diagModule = false := rfl
    rw [hfresh, Bool.false_or]

/-! ## Monotonicity and idempotence -/

/-- A build step of the full builder keeps every occupied slot occupied. -/
theorem fullBuilder_step_keeps (c d : Component) (b : FirmwareBuilder)
    (h : (packageOf b).occupied d = true) :
    (packageOf (buildStep c b)).occupied d = true := by
  cases c <;> cases d <;> first | rfl | exact h

/-- A build step of the no-diagnostics builder keeps every occupied slot occupied. -/
theorem withoutDiag_step_keeps (c d : Component) (v : FirmwareBuilderWithoutDiag)
    (h : (packageOf v).occupied d = true) :
    (packageOf (buildStep c v)).occupied d = true := by
  cases c <;> cases d <;> first | rfl | exact h

/-- When every step of a builder keeps occupied slots occupied, so does every
sequence of steps. -/
theorem buildSteps_keeps {β : Type} [AbstractFirmwareBuilder β]
    (hstep : ∀ (c d : Component) (b : β),
      (packageOf b).occupied d = true → (packageOf (buildStep c b)).occupied d = true)
    (l : List Component) (d : Component) :
    ∀ b : β, (packageOf b).occupied d = true → (packageOf (buildSteps l b)).occupied d = true := by
  induction l with
  | nil => intro b h; exact h
  | cons c l ih =>
    intro b h
    rw [buildSteps_cons]
    exact ih (buildStep c b) (hstep c d b h)

/-- C12: for the full builder `b` and the no-diagnostics builder `v` in any package
state, every slot `d` occupied before a build step `c` is occupied after it, and
likewise after any sequence `l` of build steps and after `Director::Construct`:
building never removes a component. -/
theorem occupancy_monotone (b : FirmwareBuilder) (v : FirmwareBuilderWithoutDiag)
    (c d : Component) (l : List Component) :
    ((packageOf b).occupied d = true → (packageOf (buildStep c b)).occupied d = true) ∧
    ((packageOf v).occupied d = true → (packageOf (buildStep c v)).occupied d = true) ∧
    ((packageOf b).occupied d = true → (packageOf (buildSteps l b)).occupied d = true) ∧
    ((packageOf v).occupied d = true → (packageOf (buildSteps l v)).occupied d = true) ∧
    ((packageOf b).occupied d = true →
      (packageOf (Director.Construct (Director.mk b)).firmwareBuilder_).occupied d = true) ∧
    ((packageOf v).occupied d = true →
      (packageOf (Director.Construct (Director.mk v)).firmwareBuilder_).occupied d = true) := by
  refine ⟨fullBuilder_step_keeps c d b, withoutDiag_step_keeps c d v,
    buildSteps_keeps fullBuilder_step_keeps l d b,
    buildSteps_keeps withoutDiag_step_keeps l d v, ?_, ?_⟩
  · rw [construct_eq_buildSteps]
    exact buildSteps_keeps fullBuilder_step_keeps _ d b
  · rw [construct_eq_buildSteps]
    exact buildSteps_keeps withoutDiag_step_keeps _ d v

/-- Witness of C12: builders holding only a bootloader keep it through the main-app
step, through the sequence diagnostics, bootloader, and through the director. -/
theorem occupancy_monotone_witness :
    (packageOf (FirmwareBuilder.BuildBootloader {})).occupied Component.bootloader = true ∧
    (packageOf (buildStep Component.mainApp (FirmwareBuilder.BuildBootloader {}))).occupied
      Component.bootloader = true ∧
    (packageOf (buildSteps [Component.diagModule, Component.bootloader]
      (FirmwareBuilder.BuildBootloader {}))).occupied Component.bootloader = true ∧
    (packageOf (Director.Construct
      (Director.mk (FirmwareBuilder.BuildBootloader {}))).firmwareBuilder_).occupied
        Component.bootloader = true ∧
    (packageOf (buildStep Component.bootloader
      ({} : FirmwareBuilderWithoutDiag))).occupied Component.bootloader = true ∧
    (packageOf (buildStep Component.mainApp (buildStep Component.bootloader
      ({} : FirmwareBuilderWithoutDiag)))).occupied Component.bootloader = true ∧
    (packageOf (buildSteps [Component.diagModule, Component.bootloader]
      (buildStep Component.bootloader ({} : FirmwareBuilderWithoutDiag)))).occupied
        Component.bootloader = true ∧
    (packageOf (Director.Construct (Director.mk (buildStep Component.bootloader
      ({} : FirmwareBuilderWithoutDiag)))).firmwareBuilder_).occupied
        Component.bootloader = true :=
  have h := occupancy_monotone (FirmwareBuilder.BuildBootloader {})
    (buildStep Component.bootloader ({} : FirmwareBuilderWithoutDiag))
    Component.mainApp Component.bootloader [Component.diagModule, Component.bootloader]
  ⟨by decide, h.1 (by decide), h.2.2.1 (by decide), h.2.2.2.2.1 (by decide), by decide,
    h.2.1 (by decide), h.2.2.2.1 (by decide), h.2.2.2.2.2 (by decide)⟩

/-- C13: for the full builder and the no-diagnostics builder in any starting
package state, `Director::Construct` called twice leaves the same slot occupancy
and the same status report as called once; the outcome is the same from any two
starting states on all five slots for the full builder and on the bootloader,
main-app, debug-log and version-string slots for the no-diagnostics builder,
whose diagnostics slot keeps its starting content. -/
theorem construct_idempotent (b b₂ : FirmwareBuilder) (v v₂ : FirmwareBuilderWithoutDiag) :
    (packageOf (Director.Construct (Director.Construct (Director.mk b))).firmwareBuilder_).occupancy =
      (packageOf (Director.Construct (Director.mk b)).firmwareBuilder_).occupancy ∧
    (packageOf (Director.Construct (Director.Construct (Director.mk b))).firmwareBuilder_).printStatus [] =
      (packageOf (Director.Construct (Director.mk b)).firmwareBuilder_).printStatus [] ∧
    (packageOf (Director.Construct (Director.Construct (Director.mk v))).firmwareBuilder_).occupancy =
      (packageOf (Director.Construct (Director.mk v)).firmwareBuilder_).occupancy ∧
    (packageOf (Director.Construct (Director.Construct (Director.mk v))).firmwareBuilder_).printStatus [] =
      (packageOf (Director.Construct (Director.mk v)).firmwareBuilder_).printStatus [] ∧
    (packageOf (Director.Construct (Director.mk b)).firmwareBuilder_).occupancy =
      (packageOf (Director.Construct (Director.mk b₂)).firmwareBuilder_).occupancy ∧
    (∀ c : Component, c ≠ Component.diagModule →
      (packageOf (Director.Construct (Director.mk v)).firmwareBuilder_).occupied c =
        (packageOf (Director.Construct (Director.mk v₂)).firmwareBuilder_).occupied c) ∧
    (packageOf (Director.Construct (Director.mk v)).firmwareBuilder_).occupied
        Component.diagModule =
      (packageOf v).occupied Component.diagModule := by
  refine ⟨rfl, rfl, rfl, rfl, rfl, ?_, rfl⟩
  intro c hc
  cases c <;> first | rfl | exact absurd rfl hc

/-- Witness of C13: a fresh no-diagnostics builder and one that already holds a
diagnostics module end with the same main-app occupancy. -/
theorem construct_idempotent_witness :
    Component.mainApp ≠ Component.diagModule ∧
    (packageOf (Director.Construct
        (Director.mk ({} : FirmwareBuilderWithoutDiag))).firmwareBuilder_).occupied
          Component.mainApp =
      (packageOf (Director.Construct (Director.mk
        ({ firmwarePackage_ := { diagModule_ := some {} } } :
          FirmwareBuilderWithoutDiag))).firmwareBuilder_).occupied Component.mainApp :=
  ⟨by decide,
    (construct_idempotent {} {} {} { firmwarePackage_ := { diagModule_ := some {} } }).2.2.2.2.2.1
      Component.mainApp (by decide)⟩

end Firmware
